import Mathlib

/-!
Verification development for the tkpay-site contact-submission pipeline.

Shallow embedding of the TypeScript sources:
  src/lib/sanitizer.ts          (isValidMoroccanPhoneNumber, DataSanitizer)
  src/lib/csrf-protection.ts    (validateCSRFToken, verifyCSRFTokenFromBody)
  src/lib/rate-limiter.ts       (RateLimiter.isAllowed)
  src/lib/api-middleware.ts     (withRateLimit / withContactFormRateLimit)
  src/lib/submission-cache.ts   (SubmissionCache)
  src/lib/circuit-breaker.ts    (CircuitBreaker)
  src/lib/zoho-crm.ts           (searchLeadByEmail, formatFormDataForZoho)
  pages/api/submit-contact.ts   (contactHandler)

Timestamps are Nat milliseconds.  JavaScript Map objects become association
lists with string keys.  External npm library predicates (validator.isEmail,
validator.isURL, DOMPurify.sanitize, validator.normalizeEmail, sha256) and
the outcomes of network calls are parameters of the model; all control flow
is translated from the repository sources.
-/

/-- Association list lookup, mirroring JavaScript Map.get (none = undefined). -/
def mapGet {α : Type} (m : List (String × α)) (k : String) : Option α :=
  match m with
  | [] => none
  | (k0, v) :: rest => if k0 = k then some v else mapGet rest k

/-- Association list update, mirroring JavaScript Map.set (replaces any
existing entry for the key). -/
def mapSet {α : Type} (m : List (String × α)) (k : String) (v : α) :
    List (String × α) :=
  (k, v) :: m.filter (fun p => p.1 ≠ k)

/-- Association list removal, mirroring JavaScript Map.delete. -/
def mapDelete {α : Type} (m : List (String × α)) (k : String) :
    List (String × α) :=
  m.filter (fun p => p.1 ≠ k)

/-- Substring test, mirroring JavaScript String.prototype.includes. -/
def containsSub (s pat : String) : Bool :=
  (s.toList.tails).any (fun t => pat.toList.isPrefixOf t)

/-- JavaScript String.prototype.startsWith. -/
def strStartsWith (s pat : String) : Bool :=
  pat.toList.isPrefixOf s.toList

/-- JavaScript String.prototype.trim: drop whitespace from both ends. -/
def strTrim (s : String) : String :=
  String.mk
    (((s.toList.dropWhile Char.isWhitespace).reverse.dropWhile
      Char.isWhitespace).reverse)

/-- JavaScript String.prototype.toLowerCase (ASCII letters). -/
def strToLower (s : String) : String :=
  String.mk (s.toList.map Char.toLower)

/-- Splits a character list at every occurrence of the separator character,
mirroring JavaScript String.prototype.split with a one-character separator. -/
def splitChars (sep : Char) : List Char → List (List Char)
  | [] => [[]]
  | c :: cs =>
    let rest := splitChars sep cs
    if c = sep then [] :: rest
    else
      match rest with
      | h :: t => (c :: h) :: t
      | [] => [[c]]

/-- JavaScript String.prototype.split with a one-character separator. -/
def strSplitOn (sep : Char) (s : String) : List String :=
  (splitChars sep s.toList).map String.mk

/-! ## sanitizer.ts : isValidMoroccanPhoneNumber -/

/-- From src/lib/sanitizer.ts.  digitsOnly strips every non-digit character
(the regex \D); the second branch tests the raw string for a `+212` or
`00212` prefix but tests digitsOnly for length exactly 12. -/
def isValidMoroccanPhoneNumber (phone : String) : Bool :=
  let digitsOnly := String.mk (phone.toList.filter Char.isDigit)
  if digitsOnly.length == 10 &&
      (strStartsWith digitsOnly "06" || strStartsWith digitsOnly "07") then
    true
  else if (strStartsWith phone "+212" || strStartsWith phone "00212") &&
      digitsOnly.length == 12 then
    let rest := String.mk (digitsOnly.toList.drop 3)
    strStartsWith rest "6" || strStartsWith rest "7"
  else
    false

/-! ## csrf-protection.ts -/

/-- From src/lib/csrf-protection.ts, validateCSRFToken.  The store maps token
strings to expiry timestamps.  The JavaScript guard `if (!token)` is true for
undefined and for the empty string, so both return false without touching the
store.  A token that is found is deleted whether it is expired or valid;
`expiry < new Date()` is a strict comparison. -/
def validateCSRFToken (now : Nat) (store : List (String × Nat))
    (token : Option String) : Bool × List (String × Nat) :=
  match token with
  | none => (false, store)
  | some t =>
    if t = "" then (false, store)
    else
      match mapGet store t with
      | none => (false, mapDelete store t)
      | some expiry =>
        if expiry < now then (false, mapDelete store t)
        else (true, mapDelete store t)

/-- From src/lib/csrf-protection.ts, verifyCSRFTokenFromBody.  JavaScript
`validate(header) || validate(body)` short-circuits: the body token is only
consumed when the header token fails. -/
def verifyCSRFTokenFromBody (now : Nat) (store : List (String × Nat))
    (headerToken bodyToken : Option String) : Bool × List (String × Nat) :=
  let r1 := validateCSRFToken now store headerToken
  if r1.1 then (true, r1.2)
  else validateCSRFToken now r1.2 bodyToken

/-! ## rate-limiter.ts -/

/-- Record stored per identifier by the in-memory rate limiter. -/
structure RateLimitRecord where
  count : Nat
  resetTime : Nat
  deriving DecidableEq, Repr

/-- From src/lib/rate-limiter.ts, RateLimiter.isAllowed.  A missing record or
an elapsed window installs a fresh record with count 1 and admits the
request; under the limit the count is incremented; at or over the limit the
request is denied and the record is left unchanged. -/
def RateLimiter.isAllowed (maxRequests windowMs : Nat)
    (requests : List (String × RateLimitRecord)) (identifier : String)
    (now : Nat) : Bool × List (String × RateLimitRecord) :=
  match mapGet requests identifier with
  | none => (true, mapSet requests identifier ⟨1, now + windowMs⟩)
  | some record =>
    if record.resetTime ≤ now then
      (true, mapSet requests identifier ⟨1, now + windowMs⟩)
    else if record.count < maxRequests then
      (true, mapSet requests identifier ⟨record.count + 1, record.resetTime⟩)
    else
      (false, requests)

/-- From src/lib/api-middleware.ts, the identifier function passed by
withContactFormRateLimit. -/
def contactIdentifier (ip email : String) : String :=
  "contact:" ++ ip ++ ":" ++ email

/-- From src/lib/api-middleware.ts, withRateLimit.  The wrapped handler body
constructs a NEW RateLimiter instance on every request
(`new (require('./rate-limiter').default)(...)`), so the isAllowed call
always runs against an empty request map; this definition reproduces that
literally with the empty list as the instance state. -/
def withContactFormRateLimitAllowed (ip email : String) (now : Nat) : Bool :=
  (RateLimiter.isAllowed 3 3600000 [] (contactIdentifier ip email) now).1

/-! ## submission-cache.ts -/

/-- Default TTL of the submission de-duplication cache: 5 minutes. -/
def submissionTtl : Nat := 5 * 60 * 1000

/-- From src/lib/submission-cache.ts, SubmissionCache.isDuplicate.  The cache
maps fingerprint keys to creation timestamps; an entry older than the TTL is
deleted during the lookup and reported as not a duplicate. -/
def SubmissionCache.isDuplicate (ttl now : Nat) (cache : List (String × Nat))
    (key : String) : Bool × List (String × Nat) :=
  match mapGet cache key with
  | none => (false, cache)
  | some timestamp =>
    if ttl < now - timestamp then (false, mapDelete cache key)
    else (true, cache)

/-- From src/lib/submission-cache.ts, SubmissionCache.add. -/
def SubmissionCache.add (now : Nat) (cache : List (String × Nat))
    (key : String) : List (String × Nat) :=
  mapSet cache key now

/-- JSON escaping of a single character, as performed by JSON.stringify on
string values. -/
def jsonEscapeChar (c : Char) : String :=
  if c = '"' then "\\\""
  else if c = '\\' then "\\\\"
  else if c = '\n' then "\\n"
  else if c = '\r' then "\\r"
  else if c = '\t' then "\\t"
  else String.singleton c

/-- JSON string literal for a string value. -/
def jsonStr (s : String) : String :=
  "\"" ++ String.join (s.toList.map jsonEscapeChar) ++ "\""

/-- Sanitized contact submission produced by DataSanitizer.sanitizeFormData
(src/lib/sanitizer.ts). -/
structure SanitizedFormData where
  name : String
  company : Option String
  email : String
  phone : String
  interest : String
  locale : Option String
  deriving DecidableEq, Repr

/-- The JSON.stringify image of the importantFields object built by
SubmissionCache.generateKey: exactly name, email, phone and interest, in
that key order. -/
def importantFieldsJson (d : SanitizedFormData) : String :=
  "\x7b\"name\":" ++ jsonStr d.name ++ ",\"email\":" ++ jsonStr d.email ++
    ",\"phone\":" ++ jsonStr d.phone ++ ",\"interest\":" ++
    jsonStr d.interest ++ "\x7d"

/-- From src/lib/submission-cache.ts, SubmissionCache.generateKey: the sha256
hex digest of the importantFields JSON.  The hash function itself is an
external primitive (node crypto) and is a parameter. -/
def SubmissionCache.generateKey (hash : String → String)
    (data : SanitizedFormData) : String :=
  hash (importantFieldsJson data)

/-! ## circuit-breaker.ts -/

/-- Circuit breaker states, named as in the source strings. -/
inductive CBState
  | CLOSED
  | OPEN
  | HALF_OPEN
  deriving DecidableEq, Repr

/-- Mutable fields of the CircuitBreaker class. -/
structure CircuitBreaker where
  state : CBState
  failureCount : Nat
  lastFailureTime : Option Nat
  deriving DecidableEq, Repr

/-- Initial circuit breaker state. -/
def CircuitBreaker.initial : CircuitBreaker := ⟨CBState.CLOSED, 0, none⟩

/-- From src/lib/circuit-breaker.ts, reset. -/
def CircuitBreaker.reset (_cb : CircuitBreaker) : CircuitBreaker :=
  ⟨CBState.CLOSED, 0, none⟩

/-- From src/lib/circuit-breaker.ts, onSuccess.  In HALF_OPEN the
failureCount field itself is incremented and compared against the success
threshold; in any other state everything is reset. -/
def CircuitBreaker.onSuccess (successThreshold : Nat) (cb : CircuitBreaker) :
    CircuitBreaker :=
  match cb.state with
  | CBState.HALF_OPEN =>
    let fc := cb.failureCount + 1
    if successThreshold ≤ fc then cb.reset
    else { cb with failureCount := fc }
  | _ => cb.reset

/-- From src/lib/circuit-breaker.ts, onFailure. -/
def CircuitBreaker.onFailure (failureThreshold now : Nat)
    (cb : CircuitBreaker) : CircuitBreaker :=
  let fc := cb.failureCount + 1
  if failureThreshold ≤ fc then ⟨CBState.OPEN, fc, some now⟩
  else { cb with failureCount := fc }

/-- Outcome of one CircuitBreaker.call: the protected function was not run
(rejected), or it ran and succeeded or failed. -/
inductive CBOutcome
  | rejected
  | succeeded
  | failed
  deriving DecidableEq, Repr

/-- From src/lib/circuit-breaker.ts, call.  In OPEN, the guard
`this.lastFailureTime && now - this.lastFailureTime >= this.timeout` is
JavaScript-truthy, so a lastFailureTime of 0 (falsy) also keeps the circuit
failing fast; fnSucceeds tells whether the protected function would succeed
when invoked. -/
def CircuitBreaker.call (failureThreshold timeoutMs successThreshold now : Nat)
    (fnSucceeds : Bool) (cb : CircuitBreaker) : CBOutcome × CircuitBreaker :=
  let entered : Option CircuitBreaker :=
    match cb.state with
    | CBState.OPEN =>
      match cb.lastFailureTime with
      | some t =>
        if t ≠ 0 ∧ timeoutMs ≤ now - t then
          some { cb with state := CBState.HALF_OPEN }
        else none
      | none => none
    | _ => some cb
  match entered with
  | none => (CBOutcome.rejected, cb)
  | some cb1 =>
    if fnSucceeds then (CBOutcome.succeeded, cb1.onSuccess successThreshold)
    else (CBOutcome.failed, cb1.onFailure failureThreshold now)

/-- Folds CircuitBreaker.call over a trace of (timestamp, success?) events. -/
def CircuitBreaker.run (failureThreshold timeoutMs successThreshold : Nat) :
    List (Nat × Bool) → CircuitBreaker → CircuitBreaker
  | [], cb => cb
  | (now, ok) :: rest, cb =>
    CircuitBreaker.run failureThreshold timeoutMs successThreshold rest
      (CircuitBreaker.call failureThreshold timeoutMs successThreshold now
        ok cb).2

/-! ## zoho-crm.ts : searchLeadByEmail -/

/-- A CRM lead as far as the handler needs it: its CRM-assigned id. -/
structure Lead where
  id : String
  deriving DecidableEq, Repr

/-- Outcome of the search fetch: the fetch threw (network error), or a
response arrived with a status and a parse result.  jsonData none means
response.json() threw; some none means the parsed body had no data field
(`result.data || []`); some (some l) is a data array. -/
inductive SearchFetch
  | netError
  | response (status : Nat) (jsonData : Option (Option (List Lead)))
  deriving DecidableEq, Repr

/-- The try block of ZohoCRMService.searchLeadByEmail (src/lib/zoho-crm.ts):
token acquisition may throw, a 204 returns the empty list, a non-ok status
throws, and otherwise `result.data || []` is returned.  authOk is whether
getAccessToken succeeds. -/
def searchLeadByEmailTry (authOk : Bool) (fetch : SearchFetch) :
    Except String (List Lead) :=
  if !authOk then Except.error "Missing Zoho CRM credentials in environment variables"
  else
    match fetch with
    | SearchFetch.netError => Except.error "fetch failed"
    | SearchFetch.response status jsonData =>
      if status == 204 then Except.ok []
      else if !(200 ≤ status && status ≤ 299) then
        Except.error "Failed to search leads"
      else
        match jsonData with
        | none => Except.error "Unexpected token in JSON"
        | some d => Except.ok (d.getD [])

/-- From src/lib/zoho-crm.ts, searchLeadByEmail: the catch clause turns every
error raised in the try block into the empty list. -/
def searchLeadByEmail (authOk : Bool) (fetch : SearchFetch) : List Lead :=
  match searchLeadByEmailTry authOk fetch with
  | Except.ok leads => leads
  | Except.error _ => []

/-! ## zoho-crm.ts : formatFormDataForZoho -/

/-- The Zoho lead record assembled from a sanitized submission. -/
structure ZohoLead where
  First_Name : String
  Last_Name : String
  Company : String
  Email : String
  Phone : String
  Lead_Source : String
  Description : String
  Interest_Type : String
  Language_Preference : String
  Lead_Status : String
  deriving DecidableEq, Repr

/-- interestMapping from src/lib/zoho-crm.ts. -/
def interestMapping (interest : String) : Option String :=
  if interest = "pos" then some "POS"
  else if interest = "online" then some "Online_Payment"
  else if interest = "account" then some "Payment_Account"
  else none

/-- languageMapping from src/lib/zoho-crm.ts. -/
def languageMapping (locale : String) : Option String :=
  if locale = "fr" then some "French"
  else if locale = "ar" then some "Arabic"
  else if locale = "en" then some "English"
  else none

/-- From src/lib/zoho-crm.ts, formatFormDataForZoho.  The name is trimmed and
split on single spaces; empty first or rest components fall back to Unknown
and N/A; a missing or empty company falls back to Not Specified. -/
def formatFormDataForZoho (formData : SanitizedFormData) (locale : String) :
    ZohoLead :=
  let nameParts := strSplitOn ' ' (strTrim formData.name)
  let firstName := (nameParts.head?).getD ""
  let lastName := String.intercalate " " (nameParts.drop 1)
  { First_Name := if firstName = "" then "Unknown" else firstName
    Last_Name := if lastName = "" then "N/A" else lastName
    Company :=
      match formData.company with
      | some c => if c = "" then "Not Specified" else c
      | none => "Not Specified"
    Email := formData.email
    Phone := formData.phone
    Lead_Source := "Website Form"
    Description := "Lead submitted from TKPay landing page. Interest: " ++
      formData.interest ++ ". Language: " ++ locale
    Interest_Type := (interestMapping formData.interest).getD "POS"
    Language_Preference := (languageMapping locale).getD "French"
    Lead_Status := "Not Contacted" }

/-! ## sanitizer.ts : DataSanitizer -/

/-- One field of the untrusted request body, as JavaScript sees it: absent
(undefined or null or another falsy non-string), present but not a string,
or a string. -/
inductive JField
  | absent
  | nonString
  | str (s : String)
  deriving DecidableEq, Repr

/-- The untrusted form record destructured by sanitizeFormData. -/
structure FormInput where
  name : JField
  company : JField
  email : JField
  phone : JField
  interest : JField
  locale : JField
  deriving DecidableEq, Repr

/-- Per-item result envelope of a Zoho create or update call:
`result.data[0]` with its status, message and details.id fields. -/
structure CrmResult where
  status : String
  message : String
  detailsId : String
  deriving DecidableEq, Repr

/-- Environment of the handler: external library predicates, clock values,
configuration, and the outcomes of the three CRM operations.  search returns
a plain list because searchLeadByEmail never throws (its catch clause maps
every failure to the empty list); update and create may throw. -/
structure Env where
  isEmail : String → Bool
  isURL : String → Bool
  sanitizeHtml : String → String
  normalizeEmail : String → Option String
  hash : String → String
  nodeEnv : String
  now : Nat
  nowIso : String
  search : String → List Lead
  update : String → ZohoLead → Except String CrmResult
  create : ZohoLead → Except String CrmResult

/-- JavaScript `validator.normalizeEmail(email) || email.toLowerCase().trim()`:
normalizeEmail returns a string or false, and an empty-string result is falsy
and also falls back. -/
def normalizedEmail (env : Env) (email : String) : String :=
  match env.normalizeEmail email with
  | some s => if s = "" then strTrim (strToLower email) else s
  | none => strTrim (strToLower email)

/-- The optional company field: kept only when present, a string, and
nonempty after trimming. -/
def companyField (env : Env) (f : JField) : Option String :=
  match f with
  | JField.str s =>
    if strTrim s = "" then none else some (env.sanitizeHtml (strTrim s))
  | _ => none

/-- The optional locale field: kept only when present, a string, and one of
fr, ar, en. -/
def localeField (f : JField) : Option String :=
  match f with
  | JField.str s => if ["fr", "ar", "en"].contains s then some s else none
  | _ => none

/-- From src/lib/sanitizer.ts, DataSanitizer.sanitizeFormData.  The body is
none when `!data || typeof data !== 'object'`.  Checks run in source order
and throw the source error strings; the guard `!field` on a string is true
exactly for the empty string, which every branch below also rejects through
its own emptiness or membership test. -/
def sanitizeFormData (env : Env) (data : Option FormInput) :
    Except String SanitizedFormData :=
  match data with
  | none => Except.error "Invalid form data"
  | some d =>
    match d.name with
    | JField.str nameS =>
      if strTrim nameS = "" then Except.error "Name is required"
      else
        match d.email with
        | JField.str emailS =>
          if emailS == "" || !env.isEmail emailS then
            Except.error "Valid email is required"
          else
            match d.phone with
            | JField.str phoneS =>
              if strTrim phoneS = "" then Except.error "Phone is required"
              else if !isValidMoroccanPhoneNumber phoneS then
                Except.error "Valid Moroccan phone number is required"
              else
                match d.interest with
                | JField.str interestS =>
                  if interestS == "" ||
                      !(["pos", "online", "account"].contains interestS) then
                    Except.error "Valid interest type is required"
                  else
                    Except.ok
                      { name := env.sanitizeHtml (strTrim nameS)
                        company := companyField env d.company
                        email := normalizedEmail env emailS
                        phone := env.sanitizeHtml (strTrim phoneS)
                        interest := strTrim interestS
                        locale := localeField d.locale }
                | _ => Except.error "Valid interest type is required"
            | _ => Except.error "Phone is required"
        | _ => Except.error "Valid email is required"
    | _ => Except.error "Name is required"

/-- From src/lib/sanitizer.ts, DataSanitizer.validateRequestMetadata: the
user-agent header must be present, nonempty and at most 1000 characters, and
a present nonempty referer must be a valid URL. -/
def validateRequestMetadata (env : Env) (userAgent referer : Option String) :
    Except String Unit :=
  match userAgent with
  | none => Except.error "Invalid user agent"
  | some ua =>
    if ua == "" || 1000 < ua.length then Except.error "Invalid user agent"
    else
      match referer with
      | none => Except.ok ()
      | some r =>
        if r != "" && !env.isURL r then Except.error "Invalid referer"
        else Except.ok ()

/-! ## pages/api/submit-contact.ts -/

/-- JSON response of the contact endpoint together with its HTTP status. -/
structure ApiResponse where
  status : Nat
  success : Bool
  message : String
  leadId : Option String
  error : Option String
  deriving DecidableEq, Repr

/-- One outbound CRM operation performed by the handler. -/
inductive CrmCall
  | search (email : String)
  | update (id : String) (data : ZohoLead)
  | create (data : ZohoLead)
  deriving DecidableEq, Repr

/-- The parts of the incoming HTTP request the handler inspects. -/
structure Req where
  method : String
  headerToken : Option String
  bodyToken : Option String
  userAgent : Option String
  referer : Option String
  body : Option FormInput
  deriving DecidableEq, Repr

/-- Result of one handler invocation: the response, the CSRF store and
de-duplication cache after the call, and the CRM operations performed. -/
structure HandlerResult where
  response : ApiResponse
  csrfStore : List (String × Nat)
  cache : List (String × Nat)
  calls : List CrmCall
  deriving DecidableEq, Repr

/-- The lead record sent on the update path: formatFormDataForZoho output
with the update timestamp appended to the description.  The source appends
the template text with escaped backslashes, so the literal characters are
backslash-n backslash-n. -/
def updatedLeadData (env : Env) (d : SanitizedFormData) : ZohoLead :=
  let base := formatFormDataForZoho d (d.locale.getD "fr")
  { base with Description := base.Description ++ "\\n\\nUpdated: " ++ env.nowIso }

/-- The try block of contactHandler (pages/api/submit-contact.ts): metadata
validation, sanitization, the duplicate-cache check, then the search and
create-or-update flow.  A thrown error carries the cache state and the CRM
calls performed before the throw. -/
def contactHandlerTry (env : Env) (req : Req) (cache : List (String × Nat)) :
    Except (String × List (String × Nat) × List CrmCall)
      (ApiResponse × List (String × Nat) × List CrmCall) :=
  match validateRequestMetadata env req.userAgent req.referer with
  | Except.error msg => Except.error (msg, cache, [])
  | Except.ok _ =>
    match sanitizeFormData env req.body with
    | Except.error msg => Except.error (msg, cache, [])
    | Except.ok d =>
      let cacheKey := SubmissionCache.generateKey env.hash d
      let dup := SubmissionCache.isDuplicate submissionTtl env.now cache cacheKey
      if dup.1 then
        Except.ok (⟨200, true, "Lead already submitted recently", none, none⟩,
          dup.2, [])
      else
        match env.search d.email with
        | existingLead :: _ =>
          let payload := updatedLeadData env d
          let calls := [CrmCall.search d.email,
            CrmCall.update existingLead.id payload]
          match env.update existingLead.id payload with
          | Except.error msg => Except.error (msg, dup.2, calls)
          | Except.ok result =>
            if result.status = "success" then
              Except.ok
                (⟨200, true, "Lead updated successfully", some existingLead.id,
                    none⟩,
                  SubmissionCache.add env.now dup.2 cacheKey, calls)
            else
              Except.error ("Failed to update lead: " ++ result.message,
                dup.2, calls)
        | [] =>
          let payload := formatFormDataForZoho d (d.locale.getD "fr")
          let calls := [CrmCall.search d.email, CrmCall.create payload]
          match env.create payload with
          | Except.error msg => Except.error (msg, dup.2, calls)
          | Except.ok result =>
            if result.status = "success" then
              Except.ok
                (⟨201, true, "Lead created successfully", some result.detailsId,
                    none⟩,
                  SubmissionCache.add env.now dup.2 cacheKey, calls)
            else
              Except.error ("Failed to create lead: " ++ result.message,
                dup.2, calls)

/-- The catch clause of contactHandler: chooses the response from the thrown
error message by substring inspection, exposing the internal message in the
error field only when NODE_ENV is development. -/
def catchResponse (nodeEnv msg : String) : ApiResponse :=
  if containsSub msg "Rate limit" then
    ⟨429, false, "Rate limit exceeded. Please try again later.", none, none⟩
  else if containsSub msg "CSRF token" then
    ⟨403, false, "Invalid or missing CSRF token", none, none⟩
  else if containsSub msg "Moroccan phone number" then
    ⟨400, false, "Please provide a valid Moroccan phone number", none, none⟩
  else
    ⟨500, false, "Failed to submit contact form", none,
      if nodeEnv = "development" then some msg else none⟩

/-- From pages/api/submit-contact.ts, contactHandler: the method guard, the
CSRF guard, the try block, and the catch clause (catchResponse). -/
def contactHandler (env : Env) (req : Req) (csrfStore : List (String × Nat))
    (cache : List (String × Nat)) : HandlerResult :=
  if req.method ≠ "POST" then
    ⟨⟨405, false, "Method not allowed. Use POST.", none, none⟩,
      csrfStore, cache, []⟩
  else
    let csrf := verifyCSRFTokenFromBody env.now csrfStore req.headerToken
      req.bodyToken
    if !csrf.1 then
      ⟨⟨403, false, "Invalid or missing CSRF token", none, none⟩,
        csrf.2, cache, []⟩
    else
      match contactHandlerTry env req cache with
      | Except.ok (resp, cache1, calls) => ⟨resp, csrf.2, cache1, calls⟩
      | Except.error (msg, cache1, calls) =>
        ⟨catchResponse env.nodeEnv msg, csrf.2, cache1, calls⟩

/-- From src/lib/api-middleware.ts, the rate-limit wrapper response shape:
a denied check short-circuits to a 429 response, an admitted one invokes the
wrapped handler. -/
def withRateLimit (allowed : Bool) (innerResponse : ApiResponse) :
    ApiResponse :=
  if allowed then innerResponse
  else ⟨429, false, "Rate limit exceeded. Please try again later.", none, none⟩

/-! ## Concrete fixtures for witnesses and counterexamples -/

/-- A concrete environment: identity sanitizers and hash, a recognizer for
one email address, production mode, empty CRM, successful CRM writes. -/
def envA : Env :=
  { isEmail := fun s => s == "jean@acme.fr"
    isURL := fun _ => true
    sanitizeHtml := fun s => s
    normalizeEmail := fun s => some s
    hash := fun s => s
    nodeEnv := "production"
    now := 1000000
    nowIso := "2026-01-01T00:00:00.000Z"
    search := fun _ => []
    update := fun _ _ => Except.ok ⟨"success", "", "L1"⟩
    create := fun _ => Except.ok ⟨"success", "created", "L2"⟩ }

/-- Like envA but the CRM search finds one existing lead. -/
def envB : Env :=
  { envA with search := fun _ => [⟨"L9"⟩] }

/-- A body whose name field is missing and whose other fields are valid. -/
def bodyMissingName : FormInput :=
  { name := JField.absent, company := JField.absent,
    email := JField.str "jean@acme.fr", phone := JField.str "0612345678",
    interest := JField.str "pos", locale := JField.str "fr" }

/-- A POST request carrying bodyMissingName and a CSRF token tok1. -/
def reqMissingName : Req :=
  { method := "POST", headerToken := some "tok1", bodyToken := none,
    userAgent := some "Mozilla", referer := none,
    body := some bodyMissingName }

/-- A body that is valid except for a non-Moroccan phone number. -/
def bodyBadPhone : FormInput :=
  { bodyMissingName with
    name := JField.str "Jean Dupont"
    phone := JField.str "0512345678" }

/-- A POST request carrying bodyBadPhone and a CSRF token tok1. -/
def reqBadPhone : Req :=
  { reqMissingName with body := some bodyBadPhone }

/-- A fully valid body. -/
def bodyJean : FormInput :=
  { bodyMissingName with name := JField.str "Jean Dupont" }

/-- A POST request carrying bodyJean and a CSRF token tok1. -/
def reqJean : Req :=
  { reqMissingName with body := some bodyJean }

/-- The sanitized record produced from bodyJean under envA. -/
def dJean : SanitizedFormData :=
  ⟨"Jean Dupont", none, "jean@acme.fr", "0612345678", "pos", some "fr"⟩

/-- A CSRF store holding tok1, unexpired at envA.now. -/
def storeA : List (String × Nat) := [("tok1", 2000000)]

/-- A placeholder response used to instantiate response parameters. -/
def respOk : ApiResponse := ⟨200, true, "ok", none, none⟩

/-- The circuit breaker state reached from the initial state after five
consecutive failures at time 1000 with the default configuration. -/
def cbAfterFiveFailures : CircuitBreaker :=
  CircuitBreaker.run 5 60000 3 (List.replicate 5 (1000, false))
    CircuitBreaker.initial

/-! ## Helper lemmas -/

/-- After a map deletion, the deleted key is no longer found. -/
theorem mapGet_mapDelete {α : Type} (m : List (String × α)) (k : String) :
    mapGet (mapDelete m k) k = none := by
  induction m with
  | nil => rfl
  | cons p rest ih =>
    by_cases h : p.1 = k
    · simpa [mapDelete, List.filter_cons, h] using ih
    · simpa [mapDelete, List.filter_cons, h, mapGet] using ih

/-- Every error sanitizeFormData can produce is one of its six literal
message strings. -/
theorem sanitizeFormData_error_mem (env : Env) (b : Option FormInput)
    (msg : String) (h : sanitizeFormData env b = Except.error msg) :
    msg ∈ ["Invalid form data", "Name is required", "Valid email is required",
      "Phone is required", "Valid Moroccan phone number is required",
      "Valid interest type is required"] := by
  unfold sanitizeFormData at h
  repeat' split at h
  all_goals
    first
    | (injection h with h; subst h; decide)
    | exact absurd h (by simp)

/-- No sanitizeFormData error message contains the rate-limit or CSRF
trigger substrings inspected by the catch clause. -/
theorem sanitizeFormData_error_not_special (env : Env) (b : Option FormInput)
    (msg : String) (h : sanitizeFormData env b = Except.error msg) :
    containsSub msg "Rate limit" = false ∧
      containsSub msg "CSRF token" = false := by
  have hm := sanitizeFormData_error_mem env b msg h
  fin_cases hm <;> exact ⟨by decide, by decide⟩

/-! ## Claim theorems -/

/-- C1: the contact-form rate-limit middleware constructs a fresh RateLimiter
instance (with an empty request map) on every request, so four submissions
from the same IP and email within the same hour are all admitted — the
fourth request is not rejected with 429, contradicting the claimed
3-per-hour limit. -/
theorem c1_middleware_admits_fourth_request :
    (List.range 4).map
      (fun i => withContactFormRateLimitAllowed "41.248.0.7" "user@example.ma"
        (1700000000000 + i * 1000)) = [true, true, true, true] := by decide

/-- C2 counterexample: a POST whose body is missing the name field (all other
fields valid, CSRF valid) is answered with HTTP 500, not the claimed 400:
the catch clause maps only Moroccan-phone errors to 400. -/
theorem c2_counterexample_missing_name_gets_500 :
    (contactHandler envA reqMissingName storeA []).response.status = 500 := by
  decide

/-- C3: evaluation of the Moroccan phone validator at the five inputs named
by the claim.  The local 06 form and the +212 international form are
accepted and the 05 forms rejected as claimed, but 00212712345678 is
rejected: its digit string has 14 digits while the international branch
requires exactly 12, so no 00212-prefixed number can ever pass. -/
theorem c3_phone_validator_concrete_evaluation :
    isValidMoroccanPhoneNumber "0612345678" = true ∧
    isValidMoroccanPhoneNumber "+212612345678" = true ∧
    isValidMoroccanPhoneNumber "00212712345678" = false ∧
    isValidMoroccanPhoneNumber "0512345678" = false ∧
    isValidMoroccanPhoneNumber "+212512345678" = false := by decide

/-- C7: with the default configuration (threshold 5, cooldown 60000 ms,
success threshold 3), five consecutive failures open the circuit and a call
before the cooldown is rejected, but a SINGLE success after the cooldown
closes the circuit: onSuccess reuses failureCount (already 5) as the
HALF_OPEN success counter, so the claimed three consecutive successes are
not required. -/
theorem c7_single_success_closes_circuit :
    cbAfterFiveFailures.state = CBState.OPEN ∧
    (CircuitBreaker.call 5 60000 3 30000 true cbAfterFiveFailures).1 =
      CBOutcome.rejected ∧
    (CircuitBreaker.call 5 60000 3 61000 true cbAfterFiveFailures).2.state =
      CBState.CLOSED := by decide

/-- C10 counterexample: the empty-string token defeats the claimed
delete-on-any-outcome behavior: with the empty string present in the store,
validateCSRFToken on it returns early at the falsy-token guard and leaves
the store untouched, so the queried token value is still in the store. -/
theorem c10_counterexample_empty_token_survives :
    mapGet [("", 100)] "" = some 100 ∧
    validateCSRFToken 50 [("", 100)] (some "") = (false, [("", 100)]) ∧
    mapGet (validateCSRFToken 50 [("", 100)] (some "")).2 "" = some 100 := by
  decide

/-- C4: CSRF validation is single-use and destructive.  If validateCSRFToken
returns true for a token, that token is gone from the resulting store and an
immediately following validation of the same token value returns false; a
token that is absent, or present but expired, also fails (returning false,
exactly like an already-consumed token). -/
theorem c4_csrf_token_single_use (now : Nat) (store : List (String × Nat))
    (t : String) :
    ((validateCSRFToken now store (some t)).1 = true →
      mapGet (validateCSRFToken now store (some t)).2 t = none ∧
      (validateCSRFToken now (validateCSRFToken now store (some t)).2
        (some t)).1 = false) ∧
    (mapGet store t = none →
      (validateCSRFToken now store (some t)).1 = false) ∧
    (∀ e, mapGet store t = some e → e < now →
      (validateCSRFToken now store (some t)).1 = false) := by
  by_cases ht : t = ""
  · subst ht
    refine ⟨fun h => absurd h (by simp [validateCSRFToken]), ?_, ?_⟩
    · intro _; simp [validateCSRFToken]
    · intro e _ _; simp [validateCSRFToken]
  · cases hg : mapGet store t with
    | none =>
      refine ⟨fun h => ?_, fun _ => ?_, fun e he _ => ?_⟩
      · exact absurd h (by simp [validateCSRFToken, ht, hg])
      · simp [validateCSRFToken, ht, hg]
      · simp at he
    | some e0 =>
      by_cases hlt : e0 < now
      · refine ⟨fun h => ?_, fun hn => ?_, fun e he hlt2 => ?_⟩
        · exact absurd h (by simp [validateCSRFToken, ht, hg, hlt])
        · simp at hn
        · simp [validateCSRFToken, ht, hg, hlt]
      · refine ⟨fun _ => ⟨?_, ?_⟩, fun hn => ?_, fun e he hlt2 => ?_⟩
        · simp only [validateCSRFToken, ht, hg, hlt, if_neg, if_false]
          simpa [ht, hg, hlt] using mapGet_mapDelete store t
        · have h2 : (validateCSRFToken now store (some t)).2 =
              mapDelete store t := by
            simp [validateCSRFToken, ht, hg, hlt]
          rw [h2]
          simp [validateCSRFToken, ht, mapGet_mapDelete]
        · simp at hn
        · have : e0 = e := by injection he
          subst this
          exact absurd hlt2 hlt

/-- C4 witness: a concrete unexpired token validates once and then fails on
immediate reuse. -/
theorem c4_csrf_token_single_use_witness :
    (validateCSRFToken 100 [("a", 200)] (some "a")).1 = true ∧
    (validateCSRFToken 100 (validateCSRFToken 100 [("a", 200)] (some "a")).2
      (some "a")).1 = false :=
  ⟨by decide, ((c4_csrf_token_single_use 100 [("a", 200)] "a").1 (by decide)).2⟩

/-- C10 amended: every validateCSRFToken call on a NONEMPTY token value
removes that token from the store regardless of the outcome (missing,
expired or valid); the empty string is the sole exception, stopped earlier
by the falsy-token guard. -/
theorem c10_nonempty_token_always_removed (now : Nat)
    (store : List (String × Nat)) (t : String) (ht : t ≠ "") :
    mapGet (validateCSRFToken now store (some t)).2 t = none := by
  cases hg : mapGet store t with
  | none => simpa [validateCSRFToken, ht, hg] using mapGet_mapDelete store t
  | some e0 =>
    by_cases hlt : e0 < now <;>
      simpa [validateCSRFToken, ht, hg, hlt] using mapGet_mapDelete store t

/-- C10 witness: an expired concrete token is removed by the failing
validation. -/
theorem c10_nonempty_token_always_removed_witness :
    mapGet (validateCSRFToken 500 [("b", 100)] (some "b")).2 "b" = none :=
  c10_nonempty_token_always_removed 500 [("b", 100)] "b" (by decide)

/-- C8: searchLeadByEmail returns the empty list whenever token acquisition
fails, the fetch throws, the CRM answers 204 (no match), the status is
non-ok, or the response body is malformed or has no data field; only an ok
response with a data array yields that array.  No failure is propagated, so
a failed search is indistinguishable from no match and flows into the
lead-creation branch. -/
theorem c8_search_error_opacity (f : SearchFetch) (status : Nat)
    (jd : Option (Option (List Lead))) (l : List Lead) :
    searchLeadByEmail false f = [] ∧
    searchLeadByEmail true SearchFetch.netError = [] ∧
    searchLeadByEmail true (SearchFetch.response 204 jd) = [] ∧
    (¬(200 ≤ status ∧ status ≤ 299) →
      searchLeadByEmail true (SearchFetch.response status jd) = []) ∧
    searchLeadByEmail true (SearchFetch.response status none) = [] ∧
    (200 ≤ status → status ≤ 299 → status ≠ 204 →
      searchLeadByEmail true (SearchFetch.response status (some (some l))) =
        l) ∧
    searchLeadByEmail true (SearchFetch.response status (some none)) = [] := by
  refine ⟨?_, ?_, ?_, ?_, ?_, ?_, ?_⟩
  · simp [searchLeadByEmail, searchLeadByEmailTry]
  · simp [searchLeadByEmail, searchLeadByEmailTry]
  · simp [searchLeadByEmail, searchLeadByEmailTry]
  · intro h
    have h204 : status ≠ 204 := by omega
    have hcond : status < 200 ∨ 299 < status := by omega
    rcases jd with _ | d <;>
      simp [searchLeadByEmail, searchLeadByEmailTry, h204, hcond]
  · by_cases h204 : status = 204
    · subst h204; simp [searchLeadByEmail, searchLeadByEmailTry]
    · by_cases hok : status < 200 ∨ 299 < status <;>
        simp [searchLeadByEmail, searchLeadByEmailTry, h204, hok]
  · intro h1 h2 h3
    have hcond : ¬(status < 200 ∨ 299 < status) := by omega
    simp [searchLeadByEmail, searchLeadByEmailTry, h3, hcond]
  · by_cases h204 : status = 204
    · subst h204; simp [searchLeadByEmail, searchLeadByEmailTry]
    · by_cases hok : status < 200 ∨ 299 < status <;>
        simp [searchLeadByEmail, searchLeadByEmailTry, h204, hok]

/-- C8 witness: a 500-status search that even carried a parsed lead array is
reported as the empty list, exactly like no match. -/
theorem c8_search_error_opacity_witness :
    searchLeadByEmail true (SearchFetch.response 500 (some (some [⟨"X"⟩]))) =
      [] :=
  (c8_search_error_opacity SearchFetch.netError 500 (some (some [⟨"X"⟩]))
    []).2.2.2.1 (by decide)

/-- C9: the de-duplication fingerprint depends on exactly the four fields
name, email, phone and interest: submissions agreeing on those four produce
the same key under any hash function, whatever their company and locale
fields are. -/
theorem c9_fingerprint_four_fields (hash : String → String)
    (d1 d2 : SanitizedFormData) (hn : d1.name = d2.name)
    (he : d1.email = d2.email) (hp : d1.phone = d2.phone)
    (hi : d1.interest = d2.interest) :
    SubmissionCache.generateKey hash d1 =
      SubmissionCache.generateKey hash d2 := by
  unfold SubmissionCache.generateKey importantFieldsJson
  rw [hn, he, hp, hi]

/-- C9 witness: two distinct submissions differing in company and locale
share the fingerprint key. -/
theorem c9_fingerprint_four_fields_witness :
    (⟨"Jean Dupont", some "ACME", "jean@acme.fr", "0612345678", "pos",
        some "fr"⟩ : SanitizedFormData) ≠
      (⟨"Jean Dupont", none, "jean@acme.fr", "0612345678", "pos",
        some "en"⟩ : SanitizedFormData) ∧
    SubmissionCache.generateKey (fun s => s)
        ⟨"Jean Dupont", some "ACME", "jean@acme.fr", "0612345678", "pos",
          some "fr"⟩ =
      SubmissionCache.generateKey (fun s => s)
        ⟨"Jean Dupont", none, "jean@acme.fr", "0612345678", "pos",
          some "en"⟩ :=
  ⟨by decide,
    c9_fingerprint_four_fields (fun s => s) _ _ rfl rfl rfl rfl⟩

/-- C2 amended: wrong method yields 405 and a failed CSRF check 403; a denied
rate-limit check maps to 429; but among input-validation failures only the
Moroccan-phone error is answered with 400 — every other sanitization error
(missing or non-string name, bad email, missing phone, bad interest, and a
non-object body) falls through the catch clause to 500, whose error field
carries the internal message only when NODE_ENV is development. -/
theorem c2_error_status_mapping (env : Env) (req : Req)
    (store cache : List (String × Nat)) (msg : String) (resp : ApiResponse) :
    (req.method ≠ "POST" →
      (contactHandler env req store cache).response.status = 405) ∧
    (req.method = "POST" →
      (verifyCSRFTokenFromBody env.now store req.headerToken req.bodyToken).1
        = false →
      (contactHandler env req store cache).response.status = 403) ∧
    (req.method = "POST" →
      (verifyCSRFTokenFromBody env.now store req.headerToken req.bodyToken).1
        = true →
      validateRequestMetadata env req.userAgent req.referer = Except.ok () →
      sanitizeFormData env req.body = Except.error msg →
      (contactHandler env req store cache).response.status =
        (if containsSub msg "Moroccan phone number" then 400 else 500) ∧
      (contactHandler env req store cache).response.error =
        (if containsSub msg "Moroccan phone number" then none
         else if env.nodeEnv = "development" then some msg else none)) ∧
    (withRateLimit false resp).status = 429 := by
  refine ⟨?_, ?_, ?_, ?_⟩
  · intro hm; simp [contactHandler, hm]
  · intro hm hc; simp [contactHandler, hm, hc]
  · intro hm hc hmeta hs
    have hTry : contactHandlerTry env req cache =
        Except.error (msg, cache, []) := by
      simp [contactHandlerTry, hmeta, hs]
    have hns := sanitizeFormData_error_not_special env req.body msg hs
    cases hMor : containsSub msg "Moroccan phone number" <;>
      simp [contactHandler, hm, hc, hTry, catchResponse, hns.1, hns.2, hMor]
  · simp [withRateLimit]

/-- C2 witness: the Moroccan-phone failure, the one validation error the
catch clause recognizes, is answered with 400. -/
theorem c2_error_status_mapping_witness :
    (contactHandler envA reqBadPhone storeA []).response.status = 400 := by
  have h := ((c2_error_status_mapping envA reqBadPhone storeA []
    "Valid Moroccan phone number is required" respOk).2.2.1) rfl (by decide)
    rfl rfl
  rw [h.1]
  decide

/-- C5: a submission whose fingerprint has an unexpired cache entry is
answered 200 success with no leadId and performs no CRM call at all; once
the entry is older than the TTL the same submission goes through the CRM
path again, beginning with the search. -/
theorem c5_duplicate_short_circuit (env : Env) (req : Req)
    (store cache : List (String × Nat)) (d : SanitizedFormData) (ts : Nat)
    (hm : req.method = "POST")
    (hc : (verifyCSRFTokenFromBody env.now store req.headerToken
      req.bodyToken).1 = true)
    (hmeta : validateRequestMetadata env req.userAgent req.referer =
      Except.ok ())
    (hs : sanitizeFormData env req.body = Except.ok d)
    (hts : mapGet cache (SubmissionCache.generateKey env.hash d) = some ts) :
    (env.now - ts ≤ submissionTtl →
      (contactHandler env req store cache).response =
        ⟨200, true, "Lead already submitted recently", none, none⟩ ∧
      (contactHandler env req store cache).calls = []) ∧
    (submissionTtl < env.now - ts →
      (contactHandler env req store cache).calls.head? =
        some (CrmCall.search d.email)) := by
  constructor
  · intro hfresh
    have hdup : SubmissionCache.isDuplicate submissionTtl env.now cache
        (SubmissionCache.generateKey env.hash d) = (true, cache) := by
      simp [SubmissionCache.isDuplicate, hts, Nat.not_lt.2 hfresh]
    have hTry : contactHandlerTry env req cache =
        Except.ok (⟨200, true, "Lead already submitted recently", none, none⟩,
          cache, []) := by
      simp [contactHandlerTry, hmeta, hs, hdup]
    simp [contactHandler, hm, hc, hTry]
  · intro hstale
    have hdup : SubmissionCache.isDuplicate submissionTtl env.now cache
        (SubmissionCache.generateKey env.hash d) =
        (false, mapDelete cache (SubmissionCache.generateKey env.hash d)) := by
      simp [SubmissionCache.isDuplicate, hts, hstale]
    rcases hsearch : env.search d.email with _ | ⟨l0, rest⟩
    · rcases hcr : env.create (formatFormDataForZoho d (d.locale.getD "fr"))
        with msg | r
      · simp [contactHandler, hm, hc, contactHandlerTry, hmeta, hs, hdup,
          hsearch, hcr]
      · by_cases hst : r.status = "success" <;>
          simp [contactHandler, hm, hc, contactHandlerTry, hmeta, hs, hdup,
            hsearch, hcr, hst]
    · rcases hup : env.update l0.id (updatedLeadData env d) with msg | r
      · simp [contactHandler, hm, hc, contactHandlerTry, hmeta, hs, hdup,
          hsearch, hup]
      · by_cases hst : r.status = "success" <;>
          simp [contactHandler, hm, hc, contactHandlerTry, hmeta, hs, hdup,
            hsearch, hup, hst]

/-- C5 witness: a concrete resubmission 1000 ms after the cached entry is
short-circuited with 200, no leadId and no CRM call. -/
theorem c5_duplicate_short_circuit_witness :
    (contactHandler envA reqJean storeA
        [(SubmissionCache.generateKey envA.hash dJean, 999000)]).response =
      ⟨200, true, "Lead already submitted recently", none, none⟩ ∧
    (contactHandler envA reqJean storeA
        [(SubmissionCache.generateKey envA.hash dJean, 999000)]).calls = [] :=
  (c5_duplicate_short_circuit envA reqJean storeA
      [(SubmissionCache.generateKey envA.hash dJean, 999000)] dJean 999000
      rfl (by decide) rfl rfl rfl).1 (by decide)

/-- C6: the non-duplicate path runs the upsert algorithm: with at least one
search match, the first returned lead is updated with the description
carrying an appended update timestamp, and the answer is 200 with that
existing id; with no match a lead is created and the answer is 201 with the
freshly assigned id. -/
theorem c6_upsert_algorithm (env : Env) (req : Req)
    (store cache : List (String × Nat)) (d : SanitizedFormData)
    (hm : req.method = "POST")
    (hc : (verifyCSRFTokenFromBody env.now store req.headerToken
      req.bodyToken).1 = true)
    (hmeta : validateRequestMetadata env req.userAgent req.referer =
      Except.ok ())
    (hs : sanitizeFormData env req.body = Except.ok d)
    (hnd : (SubmissionCache.isDuplicate submissionTtl env.now cache
      (SubmissionCache.generateKey env.hash d)).1 = false) :
    (∀ l rest r, env.search d.email = l :: rest →
      env.update l.id (updatedLeadData env d) = Except.ok r →
      r.status = "success" →
      (contactHandler env req store cache).response =
        ⟨200, true, "Lead updated successfully", some l.id, none⟩ ∧
      (contactHandler env req store cache).calls =
        [CrmCall.search d.email,
          CrmCall.update l.id (updatedLeadData env d)] ∧
      (updatedLeadData env d).Description =
        (formatFormDataForZoho d (d.locale.getD "fr")).Description ++
          "\\n\\nUpdated: " ++ env.nowIso) ∧
    (∀ r, env.search d.email = [] →
      env.create (formatFormDataForZoho d (d.locale.getD "fr")) =
        Except.ok r →
      r.status = "success" →
      (contactHandler env req store cache).response =
        ⟨201, true, "Lead created successfully", some r.detailsId, none⟩ ∧
      (contactHandler env req store cache).calls =
        [CrmCall.search d.email,
          CrmCall.create (formatFormDataForZoho d (d.locale.getD "fr"))]) := by
  constructor
  · intro l rest r hsearch hup hst
    refine ⟨?_, ?_, ?_⟩
    · simp [contactHandler, hm, hc, contactHandlerTry, hmeta, hs, hnd,
        hsearch, hup, hst]
    · simp [contactHandler, hm, hc, contactHandlerTry, hmeta, hs, hnd,
        hsearch, hup, hst]
    · simp [updatedLeadData]
  · intro r hsearch hcr hst
    constructor <;>
      simp [contactHandler, hm, hc, contactHandlerTry, hmeta, hs, hnd,
        hsearch, hcr, hst]

/-- C6 witness: with one existing lead L9 and a successful update, the
concrete submission is answered 200 with leadId L9 after a search and an
update call. -/
theorem c6_upsert_algorithm_witness :
    (contactHandler envB reqJean storeA []).response =
      ⟨200, true, "Lead updated successfully", some "L9", none⟩ ∧
    (contactHandler envB reqJean storeA []).calls =
      [CrmCall.search "jean@acme.fr",
        CrmCall.update "L9" (updatedLeadData envB dJean)] := by
  have h := (c6_upsert_algorithm envB reqJean storeA [] dJean rfl (by decide)
      rfl rfl (by decide)).1 ⟨"L9"⟩ [] ⟨"success", "", "L1"⟩ rfl rfl rfl
  exact ⟨h.1, h.2.1⟩
